import Mathlib

/-!
Verification development for the librosa-api service (`src/app.py`).

The service is a single HTTP handler `analyze` that orchestrates opaque
third-party DSP libraries (librosa, madmom, mutagen, matplotlib).  We embed
the handler shallowly: every opaque library call is represented by its
result, supplied in an environment `Env`; the handler's own control flow,
size check, downbeat filtering, event synthesis, response assembly and
temp-file lifecycle are translated line by line from the source.  Temp-file
creation and removal are recorded as an explicit operation trace so that
cleanup properties can be stated about the final filesystem state.
-/

namespace LibrosaApi

/-- `MAX_FILE_SIZE = 20 * 1024 * 1024` (app.py line 32). -/
def MAX_FILE_SIZE : Nat := 20 * 1024 * 1024

/-- `DEFAULT_SR = 22050` (app.py line 33). -/
def DEFAULT_SR : Nat := 22050

/-! ## Metadata extraction (`get_metadata`, app.py lines 46-68) -/

/-- A tag value as seen by `get_tag_value`: mutagen returns either a
list/tuple (the code takes `str(val[0])`, here the stringified first
element) or a scalar (the code takes `str(val)`). -/
inductive TagVal where
  | scalar (s : String)
  | seq (first : String)
  deriving Repr, DecidableEq

/-- Result of `MutagenFile(file_stream)` together with the surrounding
fallible operations inside the `try` of `get_metadata`:
`exn` = some exception was raised, `noTags` = `audio is None or not
audio.tags`, `tags lookup` = a tags mapping, as a lookup function. -/
inductive ParseResult where
  | exn
  | noTags
  | tags (lookup : String → Option TagVal)

/-- The three metadata fields of the response. -/
structure Metadata where
  song_label : Option String
  artist : Option String
  genre : Option String
  deriving Repr, DecidableEq

/-- `get_tag_value` (app.py lines 53-60). -/
def get_tag_value (lookup : String → Option TagVal) (tag_name : String) :
    Option String :=
  match lookup tag_name with
  | some (TagVal.scalar s) => some s
  | some (TagVal.seq s) => some s
  | none => none

/-- The all-null metadata structure returned on every failure path. -/
def nullMetadata : Metadata :=
  { song_label := none, artist := none, genre := none }

/-- The body of `get_metadata`'s `try` block: `Except.error` models a raised
exception reaching the `except` clause. -/
def metadata_body (p : ParseResult) : Except Unit Metadata :=
  match p with
  | ParseResult.exn => Except.error ()
  | ParseResult.noTags => Except.ok nullMetadata
  | ParseResult.tags lookup =>
      Except.ok
        { song_label := get_tag_value lookup "TIT2",
          artist := get_tag_value lookup "TPE1",
          genre := get_tag_value lookup "TCON" }

/-- `get_metadata` (app.py lines 46-68): the `except` clause turns any
exception into the all-null structure, so the function is total. -/
def get_metadata (p : ParseResult) : Metadata :=
  match metadata_body p with
  | Except.ok m => m
  | Except.error _ => nullMetadata

/-! ## Signals and opaque library results -/

/-- The decoded waveform `y, sr = librosa.load(...)`: all the handler uses
of `y` beyond opaque library calls is its length (for `duration`). -/
structure Signal where
  samples : Nat
  sr : Nat
  deriving Repr, DecidableEq

/-- `librosa.get_duration(y=y, sr=sr)` = sample count / sample rate. -/
def get_duration (sig : Signal) : ℚ :=
  (sig.samples : ℚ) / (sig.sr : ℚ)

/-- Environment of one request: the upload's byte length plus the results
of every opaque library call made on this particular input.  `decode = none`
models `librosa.load` raising; `rhythm_ok = false` models any of the
unguarded librosa analysis calls raising; `madmom = none` models the
madmom stage raising (caught in the handler); `plot_ok = false` models the
visualization block raising. -/
structure Env where
  content_len : Nat
  parse : ParseResult
  decode : Option Signal
  tempo : ℚ
  beat_times : List ℚ
  onset_times : List ℚ
  rms : List ℚ
  plp_beat_times : List ℚ
  rhythm_ok : Bool
  madmom_available : Bool
  madmom : Option (List (ℚ × Nat))
  plot_ok : Bool
  img : String

/-! ## Downbeats (app.py lines 122-137) -/

/-- Lines 129-131: keep madmom outputs whose bar position `b == 1`, take
their times, then drop any time exceeding the measured duration.  The
branch structure mirrors lines 122-137: `downbeats = []` initially, filled
only when madmom is available and its processors do not raise. -/
def computeDownbeats (env : Env) (duration : ℚ) : List ℚ :=
  if env.madmom_available then
    match env.madmom with
    | some beats_madmom =>
        let dbs := (beats_madmom.filter (fun p => p.2 == 1)).map
          (fun p => p.1)
        dbs.filter (fun db => decide (db ≤ duration))
    | none => []
  else []

/-! ## Figure width (app.py lines 143-148) -/

def dpi : ℚ := 100

def max_pixels : ℚ := 15000

def max_inches : ℚ := max_pixels / dpi

def base_width : ℚ := 10

/-- `fig_width = min(base_width + extra_width, max_inches)` with
`extra_width = duration / 1` (app.py lines 147-148). -/
def fig_width (duration : ℚ) : ℚ :=
  min (base_width + duration / 1) max_inches

/-! ## Event synthesis (app.py lines 190-205) -/

/-- One record of the `events` array.  These six fields are exactly the
keys appended at app.py lines 198-205. -/
structure Event where
  timeshow_id : Nat
  event_id : String
  event_label : String
  time_stamp : ℚ
  event_color : String
  Value : Nat
  deriving Repr, DecidableEq

/-- Round half to even on integers scaled by 1000: the embedding of
Python's `round(x, 3)` (app.py line 202), which rounds ties to the nearest
even digit. -/
def roundHalfEven (q : ℚ) : ℤ :=
  let f := ⌊q⌋
  let r := q - (f : ℚ)
  if r < 1 / 2 then f
  else if 1 / 2 < r then f + 1
  else if f % 2 = 0 then f else f + 1

/-- `round(float(t), 3)`. -/
def round3 (q : ℚ) : ℚ := ((roundHalfEven (q * 1000) : ℤ) : ℚ) / 1000

/-- `any(abs(t - db) < 0.05 for db in downbeats)` (app.py line 194). -/
def isDownbeatAligned (t : ℚ) (downbeats : List ℚ) : Bool :=
  downbeats.any (fun db => decide (|t - db| < 1 / 20))

/-- The `action` string computed at app.py line 194. -/
def action (t : ℚ) (downbeats : List ℚ) : String :=
  if isDownbeatAligned t downbeats then "Go+" else "fillIn"

/-- The record appended for the beat with 1-based index `idx` and time `t`
(app.py lines 198-205). -/
def mkEvent (idx : Nat) (t : ℚ) : Event :=
  { timeshow_id := 160,
    event_id := "M" ++ toString idx,
    event_label := "measure",
    time_stamp := round3 t,
    event_color := "#F3F6EC",
    Value := 1 }

/-- The loop of app.py lines 193-205, indices starting at `idx`.  The
`action` string is computed for each beat (line 194) but, like in the
source, it does not flow into the appended record: line 196 overwrites the
label with the constant `"measure"` and `action` only feeds the dead
`label_counts` bookkeeping. -/
def mkEventsAux (downbeats : List ℚ) : Nat → List ℚ → List Event
  | _, [] => []
  | idx, t :: rest =>
      let _a := action t downbeats
      mkEvent idx t :: mkEventsAux downbeats (idx + 1) rest

/-- `events` built from `beat_times` with `enumerate(..., start=1)`. -/
def mkEvents (beat_times downbeats : List ℚ) : List Event :=
  mkEventsAux downbeats 1 beat_times

/-! ## Response assembly (app.py lines 207-222) -/

/-- The flat JSON response.  `convert_ndarray` only converts numpy arrays
to nested lists, so on the already-list-shaped values of the embedding it
is the identity. -/
structure Response where
  tempo : ℚ
  beat_times : List ℚ
  onset_times : List ℚ
  rms : List ℚ
  duration : ℚ
  downbeats : List ℚ
  image_base64 : Option String
  speed : ℚ
  length : ℚ
  events : List Event
  song_label : Option String
  artist : Option String
  genre : Option String
  deriving Repr, DecidableEq

/-- The `response_data` dictionary of app.py lines 208-220 for a run that
reached the return statement. -/
def mkResponse (env : Env) (sig : Signal) : Response :=
  let duration := get_duration sig
  let downbeats := computeDownbeats env duration
  let metadata := get_metadata env.parse
  { tempo := env.tempo,
    beat_times := env.beat_times,
    onset_times := env.onset_times,
    rms := env.rms,
    duration := duration,
    downbeats := downbeats,
    image_base64 := some env.img,
    speed := env.tempo,
    length := duration,
    events := mkEvents env.beat_times downbeats,
    song_label := metadata.song_label,
    artist := metadata.artist,
    genre := metadata.genre }

/-! ## The handler with its temp-file trace (app.py lines 71-241) -/

/-- Filesystem operations on the two temp files: the `.mp3` decode input
(`tmp_path_for_load`) and the stereo `.wav` (`tmp_path`). -/
inductive FsOp where
  | createMp3
  | createWav
  | removeMp3
  | removeWav
  deriving Repr, DecidableEq

/-- Whether the `.mp3` temp file exists after replaying the trace. -/
def mp3Exists (ops : List FsOp) : Bool :=
  ops.foldl
    (fun st op =>
      match op with
      | FsOp.createMp3 => true
      | FsOp.removeMp3 => false
      | _ => st)
    false

/-- Whether the `.wav` temp file exists after replaying the trace. -/
def wavExists (ops : List FsOp) : Bool :=
  ops.foldl
    (fun st op =>
      match op with
      | FsOp.createWav => true
      | FsOp.removeWav => false
      | _ => st)
    false

/-- Outcome of the `try` block (app.py lines 82-222): trace so far, which
local path variables are set (the `finally` block tests them), which
stages ran, and either the response or a propagating exception. -/
structure BodyOut where
  ops : List FsOp
  tmp_path_set : Bool
  tmp_path_for_load_set : Bool
  metadata_ran : Bool
  decode_attempted : Bool
  rhythm_ran : Bool
  downbeat_ran : Bool
  result : Except Unit Response

/-- The `try` block of `analyze` (app.py lines 82-222), executed only after
the size check passed.  Order of effects follows the source: metadata,
create `.mp3` temp file, `librosa.load`, librosa rhythm analysis, create
`.wav` temp file, madmom downbeats, plotting, events, response. -/
def analyzeBody (env : Env) : BodyOut :=
  match env.decode with
  | none =>
      { ops := [FsOp.createMp3], tmp_path_set := false,
        tmp_path_for_load_set := true, metadata_ran := true,
        decode_attempted := true, rhythm_ran := false,
        downbeat_ran := false, result := Except.error () }
  | some sig =>
      if env.rhythm_ok then
        if env.plot_ok then
          { ops := [FsOp.createMp3, FsOp.createWav], tmp_path_set := true,
            tmp_path_for_load_set := true, metadata_ran := true,
            decode_attempted := true, rhythm_ran := true,
            downbeat_ran := true,
            result := Except.ok (mkResponse env sig) }
        else
          { ops := [FsOp.createMp3, FsOp.createWav], tmp_path_set := true,
            tmp_path_for_load_set := true, metadata_ran := true,
            decode_attempted := true, rhythm_ran := true,
            downbeat_ran := true, result := Except.error () }
      else
        { ops := [FsOp.createMp3], tmp_path_set := false,
          tmp_path_for_load_set := true, metadata_ran := true,
          decode_attempted := true, rhythm_ran := false,
          downbeat_ran := false, result := Except.error () }

/-- The `finally` block (app.py lines 224-235): remove the `.wav` if
`tmp_path` is set and the file exists, then remove the `.mp3` if
`tmp_path_for_load` is a local and the file exists. -/
def finallyOps (b : BodyOut) : List FsOp :=
  (if b.tmp_path_set && wavExists b.ops then [FsOp.removeWav] else []) ++
  (if b.tmp_path_for_load_set && mp3Exists b.ops then [FsOp.removeMp3]
   else [])

/-- Result of the whole handler as the HTTP framework sees it:
a JSON response, a raised `HTTPException`, or an unhandled exception that
the framework maps to a generic server error. -/
inductive HResult where
  | ok (r : Response)
  | httpError (status : Nat) (detail : String)
  | serverError
  deriving Repr, DecidableEq

/-- Final outcome of `analyze`: the complete temp-file trace and the
result. -/
structure Outcome where
  ops : List FsOp
  metadata_ran : Bool
  decode_attempted : Bool
  rhythm_ran : Bool
  downbeat_ran : Bool
  result : HResult

/-- `analyze` (app.py lines 71-241).  The size check (lines 74-76) raises
`HTTPException(413, "File too large")` before the `try` block, so on that
path nothing has run and no temp file was ever created; otherwise the body
runs and the `finally` block appends its removals to the trace. -/
def analyze (env : Env) : Outcome :=
  if MAX_FILE_SIZE < env.content_len then
    { ops := [], metadata_ran := false, decode_attempted := false,
      rhythm_ran := false, downbeat_ran := false,
      result := HResult.httpError 413 "File too large" }
  else
    let b := analyzeBody env
    { ops := b.ops ++ finallyOps b,
      metadata_ran := b.metadata_ran,
      decode_attempted := b.decode_attempted,
      rhythm_ran := b.rhythm_ran,
      downbeat_ran := b.downbeat_ran,
      result :=
        match b.result with
        | Except.ok r => HResult.ok r
        | Except.error _ => HResult.serverError }

/-! ## Concrete environments for witnesses -/

/-- A 2-second decoded signal at the default sample rate. -/
def sampleSignal : Signal := { samples := 44100, sr := 22050 }

/-- A small fully successful request: madmom available and returning three
labeled positions, of which (0.5, 1) and (3, 1) are downbeats and 3 exceeds
the 2-second duration. -/
def sampleEnv : Env :=
  { content_len := 1000,
    parse := ParseResult.noTags,
    decode := some sampleSignal,
    tempo := 120,
    beat_times := [1 / 2, 1, 3 / 2],
    onset_times := [1 / 4],
    rms := [1 / 10],
    plp_beat_times := [1 / 2],
    rhythm_ok := true,
    madmom_available := true,
    madmom := some [(1 / 2, 1), (1, 2), (3, 1)],
    plot_ok := true,
    img := "iVBORw0KGgo" }

/-- Like `sampleEnv` but with the downbeat subsystem unavailable. -/
def sampleEnvNoMadmom : Env :=
  { sampleEnv with madmom_available := false, madmom := none }

/-- Like `sampleEnv` but with an upload of exactly 20 MiB. -/
def sampleEnvAtLimit : Env :=
  { sampleEnv with content_len := MAX_FILE_SIZE }

/-- Like `sampleEnv` but with an upload one byte over the limit. -/
def sampleEnvOver : Env :=
  { sampleEnv with content_len := MAX_FILE_SIZE + 1 }

/-! ## Helper lemmas -/

/-- A successful result arises only from the fully successful branch, and
the response is exactly `mkResponse`. -/
theorem analyze_ok_inv (env : Env) (r : Response)
    (h : (analyze env).result = HResult.ok r) :
    ∃ sig, env.decode = some sig ∧ env.rhythm_ok = true ∧
      env.plot_ok = true ∧ env.content_len ≤ MAX_FILE_SIZE ∧
      r = mkResponse env sig := by
  unfold analyze at h
  by_cases hlen : MAX_FILE_SIZE < env.content_len
  · simp [hlen] at h
  · simp only [hlen, if_false] at h
    unfold analyzeBody at h
    cases hdec : env.decode with
    | none => simp [hdec] at h
    | some sig =>
        by_cases hr : env.rhythm_ok
        · by_cases hp : env.plot_ok
          · simp [hdec, hr, hp] at h
            exact ⟨sig, rfl, hr, hp, Nat.not_lt.mp hlen, h.symm⟩
          · simp [hdec, hr, hp] at h
        · simp [hdec, hr] at h

theorem mkEventsAux_length (db : List ℚ) (bt : List ℚ) (idx : Nat) :
    (mkEventsAux db idx bt).length = bt.length := by
  induction bt generalizing idx with
  | nil => rfl
  | cons t rest ih => simp [mkEventsAux, ih]

theorem mkEventsAux_get? (db : List ℚ) (bt : List ℚ) (idx i : Nat)
    (t : ℚ) (h : bt[i]? = some t) :
    (mkEventsAux db idx bt)[i]? = some (mkEvent (idx + i) t) := by
  induction bt generalizing idx i with
  | nil => simp at h
  | cons u rest ih =>
      cases i with
      | zero =>
          simp at h
          simp [mkEventsAux, h]
      | succ j =>
          simp at h
          have hj := ih (idx + 1) j h
          simp only [mkEventsAux, List.getElem?_cons_succ]
          rw [hj]
          congr 2
          omega

theorem mkEventsAux_db_irrel (db db' : List ℚ) (bt : List ℚ) (idx : Nat) :
    mkEventsAux db idx bt = mkEventsAux db' idx bt := by
  induction bt generalizing idx with
  | nil => rfl
  | cons t rest ih => simp [mkEventsAux, ih]

theorem mkEventsAux_label (db : List ℚ) (bt : List ℚ) (idx : Nat) :
    ∀ e ∈ mkEventsAux db idx bt, e.event_label = "measure" := by
  induction bt generalizing idx with
  | nil => intro e he; simp [mkEventsAux] at he
  | cons t rest ih =>
      intro e he
      simp only [mkEventsAux, List.mem_cons] at he
      rcases he with he | he
      · subst he; rfl
      · exact ih (idx + 1) e he

/-- When the size check passes and decode, rhythm analysis and plotting all
succeed, the handler returns the assembled response. -/
theorem analyze_ok (env : Env) (sig : Signal)
    (hsize : env.content_len ≤ MAX_FILE_SIZE)
    (hdec : env.decode = some sig) (hr : env.rhythm_ok = true)
    (hp : env.plot_ok = true) :
    (analyze env).result = HResult.ok (mkResponse env sig) := by
  have hlen : ¬ MAX_FILE_SIZE < env.content_len := by omega
  simp [analyze, analyzeBody, hlen, hdec, hr, hp]

/-- When the downbeat stage is skipped or raises, `downbeats` stays `[]`. -/
theorem computeDownbeats_eq_nil (env : Env) (duration : ℚ)
    (hdb : env.madmom_available = false ∨ env.madmom = none) :
    computeDownbeats env duration = [] := by
  unfold computeDownbeats
  rcases hdb with h | h
  · simp [h]
  · cases ha : env.madmom_available <;> simp [h]

/-! ## The claims -/

/-- Claim C1: an upload whose byte length exceeds 20 MiB makes the handler
fail with HTTP 413 and the message "File too large"; the rejection happens
before any work: no temp file is created (the trace is empty) and
metadata, decoding, rhythm analysis and downbeat processing never run. -/
theorem oversize_upload_rejected_before_any_work (env : Env)
    (h : MAX_FILE_SIZE < env.content_len) :
    (analyze env).result = HResult.httpError 413 "File too large" ∧
    (analyze env).ops = [] ∧
    (analyze env).metadata_ran = false ∧
    (analyze env).decode_attempted = false ∧
    (analyze env).rhythm_ran = false ∧
    (analyze env).downbeat_ran = false := by
  simp [analyze, h]

theorem oversize_upload_rejected_before_any_work_witness :
    (analyze sampleEnvOver).result = HResult.httpError 413 "File too large" ∧
    (analyze sampleEnvOver).ops = [] ∧
    (analyze sampleEnvOver).metadata_ran = false ∧
    (analyze sampleEnvOver).decode_attempted = false ∧
    (analyze sampleEnvOver).rhythm_ran = false ∧
    (analyze sampleEnvOver).downbeat_ran = false :=
  oversize_upload_rejected_before_any_work sampleEnvOver (by decide)

/-- Claim C8: on every exit path of the handler (rejection before the
`try` block, decode failure, rhythm-analysis failure, visualization
failure, or normal return) neither of the two temp files remains after the
`finally` block runs: replaying the complete trace leaves no file. -/
theorem temp_files_removed_on_every_path (env : Env) :
    mp3Exists (analyze env).ops = false ∧
    wavExists (analyze env).ops = false := by
  unfold analyze
  by_cases hlen : MAX_FILE_SIZE < env.content_len
  · rw [if_pos hlen]
    exact ⟨rfl, rfl⟩
  · rw [if_neg hlen]
    show mp3Exists ((analyzeBody env).ops ++ finallyOps (analyzeBody env)) = false ∧
      wavExists ((analyzeBody env).ops ++ finallyOps (analyzeBody env)) = false
    unfold analyzeBody
    cases env.decode with
    | none => exact ⟨rfl, rfl⟩
    | some sig =>
        cases hr : env.rhythm_ok
        · simp only [Bool.false_eq_true, if_false]
          exact ⟨rfl, rfl⟩
        · simp only [if_true]
          cases hp : env.plot_ok
          · simp only [Bool.false_eq_true, if_false]
            exact ⟨rfl, rfl⟩
          · simp only [if_true]
            exact ⟨rfl, rfl⟩

/-- Claim C10: the size check is strict: an upload of exactly
`20 * 1024 * 1024` bytes passes the check and (when the pipeline stages
succeed) is fully processed to a JSON response, while the 413 rejection
with "File too large" happens exactly for uploads strictly larger than
the limit. -/
theorem size_check_strict_at_limit (env env' : Env) (sig : Signal)
    (hlen : env.content_len = MAX_FILE_SIZE)
    (hdec : env.decode = some sig) (hr : env.rhythm_ok = true)
    (hp : env.plot_ok = true) :
    (∃ r, (analyze env).result = HResult.ok r) ∧
    ((analyze env').result = HResult.httpError 413 "File too large" ↔
      MAX_FILE_SIZE < env'.content_len) := by
  constructor
  · exact ⟨mkResponse env sig, analyze_ok env sig (by omega) hdec hr hp⟩
  · constructor
    · intro h
      by_contra hnot
      unfold analyze at h
      rw [if_neg hnot] at h
      revert h
      show ¬ (match (analyzeBody env').result with
        | Except.ok r => HResult.ok r
        | Except.error _ => HResult.serverError) =
          HResult.httpError 413 "File too large"
      cases (analyzeBody env').result <;> simp
    · intro h
      simp [analyze, h]

theorem size_check_strict_at_limit_witness :
    (∃ r, (analyze sampleEnvAtLimit).result = HResult.ok r) ∧
    ((analyze sampleEnvOver).result = HResult.httpError 413 "File too large" ↔
      MAX_FILE_SIZE < sampleEnvOver.content_len) :=
  size_check_strict_at_limit sampleEnvAtLimit sampleEnvOver sampleSignal
    rfl rfl rfl rfl

/-- Claim C2: when the downbeat subsystem is unavailable at process start
or its stage raises at runtime, and the rest of the pipeline succeeds, the
request completes with a full response whose `downbeats` field is `[]` and
whose every other field is populated as usual: downbeat failure is never
surfaced as an error. -/
theorem downbeat_failure_never_fatal (env : Env) (sig : Signal)
    (hsize : env.content_len ≤ MAX_FILE_SIZE)
    (hdec : env.decode = some sig) (hr : env.rhythm_ok = true)
    (hp : env.plot_ok = true)
    (hdb : env.madmom_available = false ∨ env.madmom = none) :
    ∃ r, (analyze env).result = HResult.ok r ∧ r.downbeats = [] ∧
      r.tempo = env.tempo ∧ r.beat_times = env.beat_times ∧
      r.onset_times = env.onset_times ∧ r.rms = env.rms ∧
      r.duration = get_duration sig ∧ r.image_base64 = some env.img ∧
      r.speed = env.tempo ∧ r.length = get_duration sig ∧
      r.events = mkEvents env.beat_times [] ∧
      r.song_label = (get_metadata env.parse).song_label ∧
      r.artist = (get_metadata env.parse).artist ∧
      r.genre = (get_metadata env.parse).genre := by
  have hnil := computeDownbeats_eq_nil env (get_duration sig) hdb
  refine ⟨mkResponse env sig, analyze_ok env sig hsize hdec hr hp, hnil, rfl,
    rfl, rfl, rfl, rfl, rfl, rfl, rfl, ?_, rfl, rfl, rfl⟩
  show mkEvents env.beat_times (computeDownbeats env (get_duration sig)) =
    mkEvents env.beat_times []
  rw [hnil]

theorem downbeat_failure_never_fatal_witness :
    ∃ r, (analyze sampleEnvNoMadmom).result = HResult.ok r ∧
      r.downbeats = [] ∧
      r.tempo = sampleEnvNoMadmom.tempo ∧
      r.beat_times = sampleEnvNoMadmom.beat_times ∧
      r.onset_times = sampleEnvNoMadmom.onset_times ∧
      r.rms = sampleEnvNoMadmom.rms ∧
      r.duration = get_duration sampleSignal ∧
      r.image_base64 = some sampleEnvNoMadmom.img ∧
      r.speed = sampleEnvNoMadmom.tempo ∧
      r.length = get_duration sampleSignal ∧
      r.events = mkEvents sampleEnvNoMadmom.beat_times [] ∧
      r.song_label = (get_metadata sampleEnvNoMadmom.parse).song_label ∧
      r.artist = (get_metadata sampleEnvNoMadmom.parse).artist ∧
      r.genre = (get_metadata sampleEnvNoMadmom.parse).genre :=
  downbeat_failure_never_fatal sampleEnvNoMadmom sampleSignal (by decide)
    rfl rfl rfl (Or.inl rfl)

/-- Claim C3: in every successful response the `events` array has exactly
one record per beat time, and the record at 0-based position `i` is the
fixed-shape record with `event_id = "M" ++ (i+1)`, label `"measure"`, the
beat time rounded to 3 decimals, and the constant `timeshow_id`,
`event_color` and `Value` fields. -/
theorem events_match_beat_times (env : Env) (r : Response)
    (h : (analyze env).result = HResult.ok r) :
    r.events.length = r.beat_times.length ∧
    ∀ i t, r.beat_times[i]? = some t →
      r.events[i]? = some
        ({ timeshow_id := 160, event_id := "M" ++ toString (i + 1),
           event_label := "measure", time_stamp := round3 t,
           event_color := "#F3F6EC", Value := 1 } : Event) := by
  obtain ⟨sig, hdec, hr, hp, hsize, hrr⟩ := analyze_ok_inv env r h
  subst hrr
  constructor
  · show (mkEventsAux (computeDownbeats env (get_duration sig)) 1
      env.beat_times).length = env.beat_times.length
    exact mkEventsAux_length _ _ _
  · intro i t ht
    have ht' : env.beat_times[i]? = some t := ht
    have hg := mkEventsAux_get?
      (computeDownbeats env (get_duration sig)) env.beat_times 1 i t ht'
    show (mkEventsAux (computeDownbeats env (get_duration sig)) 1
      env.beat_times)[i]? = _
    rw [hg]
    show some (mkEvent (1 + i) t) = some (mkEvent (i + 1) t)
    rw [Nat.add_comm 1 i]

theorem events_match_beat_times_witness :
    (mkResponse sampleEnv sampleSignal).events.length =
      (mkResponse sampleEnv sampleSignal).beat_times.length ∧
    (mkResponse sampleEnv sampleSignal).events[0]? = some
      ({ timeshow_id := 160, event_id := "M" ++ toString (0 + 1),
         event_label := "measure", time_stamp := round3 (1 / 2),
         event_color := "#F3F6EC", Value := 1 } : Event) := by
  have hok : (analyze sampleEnv).result =
      HResult.ok (mkResponse sampleEnv sampleSignal) :=
    analyze_ok sampleEnv sampleSignal (by decide) rfl rfl rfl
  have h := events_match_beat_times sampleEnv
    (mkResponse sampleEnv sampleSignal) hok
  exact ⟨h.1, h.2 0 (1 / 2) rfl⟩

/-- Claim C4: in every successful response `speed` equals `tempo` and
`length` equals `duration`. -/
theorem speed_length_duplicate_fields (env : Env) (r : Response)
    (h : (analyze env).result = HResult.ok r) :
    r.speed = r.tempo ∧ r.length = r.duration := by
  obtain ⟨sig, _, _, _, _, hrr⟩ := analyze_ok_inv env r h
  subst hrr
  exact ⟨rfl, rfl⟩

theorem speed_length_duplicate_fields_witness :
    (mkResponse sampleEnv sampleSignal).speed =
      (mkResponse sampleEnv sampleSignal).tempo ∧
    (mkResponse sampleEnv sampleSignal).length =
      (mkResponse sampleEnv sampleSignal).duration :=
  speed_length_duplicate_fields sampleEnv (mkResponse sampleEnv sampleSignal)
    (analyze_ok sampleEnv sampleSignal (by decide) rfl rfl rfl)

/-- Claim C5: in every successful response, when the downbeat tracker ran
and produced output, `downbeats` is exactly the tracker outputs whose bar
position equals 1, keeping their times, with times exceeding the measured
duration discarded; and in every successful response every element of
`downbeats` is at most `duration`. -/
theorem downbeats_filtered_by_label_and_duration (env : Env) (r : Response)
    (h : (analyze env).result = HResult.ok r) :
    (∀ bm, env.madmom_available = true → env.madmom = some bm →
      r.downbeats =
        ((bm.filter (fun p => p.2 == 1)).map (fun p => p.1)).filter
          (fun db => decide (db ≤ r.duration))) ∧
    (∀ x ∈ r.downbeats, x ≤ r.duration) := by
  obtain ⟨sig, hdec, hr, hp, hsize, hrr⟩ := analyze_ok_inv env r h
  subst hrr
  constructor
  · intro bm havail hm
    show computeDownbeats env (get_duration sig) =
      ((bm.filter (fun p => p.2 == 1)).map (fun p => p.1)).filter
        (fun db => decide (db ≤ get_duration sig))
    simp only [computeDownbeats, havail, if_true, hm]
  · intro x hx
    have hx' : x ∈ computeDownbeats env (get_duration sig) := hx
    unfold computeDownbeats at hx'
    cases ha : env.madmom_available
    · rw [ha] at hx'
      simp at hx'
    · rw [ha] at hx'
      simp only [if_true] at hx'
      cases hm : env.madmom with
      | none => rw [hm] at hx'; simp at hx'
      | some bm =>
          rw [hm] at hx'
          have := (List.mem_filter.mp hx').2
          exact of_decide_eq_true this

theorem downbeats_filtered_by_label_and_duration_witness :
    ((mkResponse sampleEnv sampleSignal).downbeats =
      ((([((1 : ℚ) / 2, 1), (1, 2), (3, 1)]).filter
        (fun p => p.2 == 1)).map (fun p => p.1)).filter
          (fun db =>
            decide (db ≤ (mkResponse sampleEnv sampleSignal).duration))) ∧
    ((1 : ℚ) / 2 ≤ (mkResponse sampleEnv sampleSignal).duration) := by
  have hok : (analyze sampleEnv).result =
      HResult.ok (mkResponse sampleEnv sampleSignal) :=
    analyze_ok sampleEnv sampleSignal (by decide) rfl rfl rfl
  have h := downbeats_filtered_by_label_and_duration sampleEnv
    (mkResponse sampleEnv sampleSignal) hok
  have hd : (mkResponse sampleEnv sampleSignal).downbeats = [1 / 2] := by
    norm_num [mkResponse, computeDownbeats, sampleEnv, sampleSignal,
      get_duration, List.filter]
  refine ⟨h.1 _ rfl rfl, h.2 (1 / 2) ?_⟩
  rw [hd]
  exact List.mem_singleton.mpr rfl

/-- Claim C6: metadata extraction is total: if anything inside its `try`
block raises, the result is the fixed all-null structure; and the result
always carries the three keys `song_label`, `artist`, `genre` (possibly
null), never omitting them. -/
theorem metadata_total_all_null_on_failure (p : ParseResult) :
    (metadata_body p = Except.error () → get_metadata p = nullMetadata) ∧
    ∃ a b c, get_metadata p =
      { song_label := a, artist := b, genre := c } := by
  constructor
  · intro h
    unfold get_metadata
    rw [h]
  · exact ⟨_, _, _, rfl⟩

theorem metadata_total_all_null_on_failure_witness :
    get_metadata ParseResult.exn = nullMetadata ∧
    ∃ a b c, get_metadata ParseResult.exn =
      { song_label := a, artist := b, genre := c } :=
  ⟨(metadata_total_all_null_on_failure ParseResult.exn).1 rfl,
   (metadata_total_all_null_on_failure ParseResult.exn).2⟩

/-- Claim C7 is false as stated: the downbeat-alignment classification is
computed (app.py line 194) but is not a field of the emitted record.  Two
runs whose only difference is the downbeat alignment of the beat (aligned
in the first, not in the second) emit identical event records, so no field
of the record carries the classification. -/
theorem event_records_do_not_carry_action_tag_cex :
    isDownbeatAligned 1 [1] = true ∧ isDownbeatAligned 1 [] = false ∧
    mkEvents [1] [1] = mkEvents [1] [] := by
  refine ⟨?_, rfl, mkEventsAux_db_irrel [1] [] [1] 1⟩
  norm_num [isDownbeatAligned]

/-- Claim C7 (amended): for every beat the downbeat-alignment
classification within 50 ms is computed during event synthesis, but it
does not flow into the emitted record: the `events` output is entirely
independent of the tracked downbeats, and every emitted record carries the
constant label `"measure"` instead. -/
theorem event_records_independent_of_downbeats (bt db db' : List ℚ) :
    mkEvents bt db = mkEvents bt db' ∧
    ∀ e ∈ mkEvents bt db, e.event_label = "measure" :=
  ⟨mkEventsAux_db_irrel db db' bt 1, mkEventsAux_label db bt 1⟩

theorem event_records_independent_of_downbeats_witness :
    mkEvents [1] [3] = mkEvents [1] [] ∧
    (mkEvent 1 1).event_label = "measure" :=
  ⟨(event_records_independent_of_downbeats [1] [3] []).1,
   (event_records_independent_of_downbeats [1] [3] []).2 (mkEvent 1 1)
     (by show mkEvent 1 1 ∈ [mkEvent 1 1]; exact List.mem_singleton.mpr rfl)⟩

/-- Claim C9: for every clip duration `d ≥ 0` the rendered figure width in
inches is `min(10 + d, 150)` (at 100 dpi, i.e. a 15000-pixel budget), so
it is at least 10, at most 150, and monotone non-decreasing in `d`. -/
theorem figure_width_bounds (d d' : ℚ) (h : 0 ≤ d) (h' : d ≤ d') :
    fig_width d = min (10 + d) 150 ∧ 10 ≤ fig_width d ∧
    fig_width d ≤ 150 ∧ fig_width d ≤ fig_width d' := by
  have hw : ∀ x : ℚ, fig_width x = min (10 + x) 150 := by
    intro x
    unfold fig_width base_width max_inches max_pixels dpi
    norm_num
  refine ⟨hw d, ?_, ?_, ?_⟩
  · rw [hw d]
    exact le_min (by linarith) (by norm_num)
  · rw [hw d]
    exact min_le_right _ _
  · rw [hw d, hw d']
    exact min_le_min (by linarith) le_rfl

theorem figure_width_bounds_witness :
    fig_width 3 = min (10 + 3) 150 ∧ 10 ≤ fig_width 3 ∧
    fig_width 3 ≤ 150 ∧ fig_width 3 ≤ fig_width 5 :=
  figure_width_bounds 3 5 (by norm_num) (by norm_num)

end LibrosaApi
